import Mathlib

/-!
# Verification of `type_checker.py`

A shallow embedding of the runtime type-checking decorator in
`src/type_checker.py` (function `typecheck` and its inner wrapper
`check_type`), together with proofs about the claims of the
specification.

Modelling decisions, all taken from the source and Python semantics:

* A Python runtime type object is `PyType` (name plus the names of its
  transitive base classes); Python compares type objects by identity,
  modelled as decidable equality on `PyType`.
* The objects that can appear as values of `func.__annotations__` are
  `PyAnn`: a genuine type object, the `typing.Any` sentinel, a bare
  string, or a union object such as `int | str`.  On the Python
  versions the module targets (3.7 - 3.10, enforced by the guard at the
  top of the file), only the first satisfies `isinstance(x, type)`.
* `func.__annotations__` is an insertion-ordered dict mapping each
  *annotated* parameter name to its annotation, followed by the key
  `"return"` when the function has a return annotation.  It is modelled
  as an association list built by `annsOf`.
* Raising `TypeError(msg)` / `IndexError(msg)` is modelled by returning
  `Except.error e` where `e : CheckError` records the raise site and its
  data; `CheckError.message` reproduces the exact message string the
  source formats, and `CheckError.pyExceptionName` records which Python
  exception class is raised.
* The original callable's behaviour is an opaque field
  `PyFunction.call`; `check_type` either errors or returns
  `f.call args kwargs`, exactly as line 166 of the source calls
  `func(*args, **kwargs)`.
-/

/-- A Python runtime type object (`type` instance): its name and the names
of its (transitive, proper) base classes.  Equality models Python's
identity comparison of type objects. -/
structure PyType where
  name : String
  bases : List String
deriving DecidableEq

/-- Predicate: `s` is a strict subclass of `t`: `t` is among the proper bases of `s`
and `s` is not `t` itself. -/
def isStrictSubclass (s t : PyType) : Prop :=
  t.name ∈ s.bases ∧ s ≠ t

/-- An object that can occur as a value of `func.__annotations__`:
a genuine runtime type object, the `typing.Any` sentinel, a bare string
(e.g. a forward reference written as a string literal), or a union
object such as `int | str` (a `types.UnionType`, stored here by its
`str()` rendering). -/
inductive PyAnn where
  | typeObj (t : PyType)
  | anySentinel
  | strAnn (s : String)
  | unionAnn (reprStr : String)
deriving DecidableEq

/-- The test `isinstance(a, type)` for an annotation object: only a genuine type
object is an instance of `type` on Python 3.7 - 3.10. -/
def PyAnn.isTypeObj : PyAnn → Bool
  | .typeObj _ => true
  | _ => false

/-- Rendering `str()` of a type object, e.g. `<class 'int'>`. -/
def strOfPyType (t : PyType) : String :=
  "<class \x27" ++ t.name ++ "\x27>"

/-- Rendering `str()` of an annotation object. `str(typing.Any) = "typing.Any"`;
`str` of a string is itself; a union renders as e.g. `int | str`. -/
def strOfAnn : PyAnn → String
  | .typeObj t => strOfPyType t
  | .anySentinel => "typing.Any"
  | .strAnn s => s
  | .unionAnn r => r

/-- A Python value, abstracted to what `check_type` inspects: its runtime
type (`type(v)`), plus a payload distinguishing values of one type. -/
structure PyValue where
  typeOf : PyType
  payload : Nat
deriving DecidableEq

/-- The kinds of `inspect._ParameterKind`. -/
inductive ParamKind where
  | POSITIONAL_ONLY
  | POSITIONAL_OR_KEYWORD
  | VAR_POSITIONAL
  | KEYWORD_ONLY
  | VAR_KEYWORD
deriving DecidableEq

/-- Rendering `str()` of a parameter kind as interpolated into the f-string of
`get_clear_argument_signature` (the enum member's name on the Python
versions the module targets). -/
def strOfKind : ParamKind → String
  | .POSITIONAL_ONLY => "POSITIONAL_ONLY"
  | .POSITIONAL_OR_KEYWORD => "POSITIONAL_OR_KEYWORD"
  | .VAR_POSITIONAL => "VAR_POSITIONAL"
  | .KEYWORD_ONLY => "KEYWORD_ONLY"
  | .VAR_KEYWORD => "VAR_KEYWORD"

/-- One entry of `inspect.signature(func).parameters`: name, kind,
annotation (`none` when the parameter carries no annotation, i.e.
`inspect._empty`), and `str()` of the default value (`none` when the
parameter has no default, i.e. the default is `inspect._empty`). -/
structure Param where
  name : String
  kind : ParamKind
  ann : Option PyAnn
  defaultStr : Option String
deriving DecidableEq

/-- A Python function object as `typecheck` sees it: `__name__`,
`__doc__`, the ordered signature parameters, the return annotation (the
`"return"` key of `__annotations__`, if present), whether
`inspect.isfunction` accepts it, whether it is invocable at all, and its
behaviour when actually called with positional and keyword arguments. -/
structure PyFunction where
  name : String
  doc : Option String
  params : List Param
  retAnn : Option PyAnn
  isFunction : Bool
  isCallable : Bool
  call : List PyValue → List (String × PyValue) → PyValue

/-- The map `func.__annotations__` (line 89 of the source): the annotated
parameters in declaration order, then the `"return"` entry when the
function has a return annotation.  Parameters without annotation do not
appear. -/
def annsOf (f : PyFunction) : List (String × PyAnn) :=
  f.params.filterMap (fun p => (Param.ann p).map (fun a => (p.name, a)))
    ++ (match f.retAnn with
        | some a => [("return", a)]
        | none => [])

/-- Dict lookup `type_annotations[name]` (first entry with the key;
Python dict keys are unique). -/
def lookupAnn (anns : List (String × PyAnn)) (k : String) : Option PyAnn :=
  (anns.find? (fun pa => pa.1 == k)).map (fun pa => pa.2)

/-- The list `function_positional_argument_list` (line 95 of the source):
`list(signature(func).parameters.keys())` — the names of *all* declared
parameters in declaration order, annotated or not. -/
def posNames (f : PyFunction) : List String :=
  f.params.map Param.name

/-- The distinct raise sites of the source, with the data each message
interpolates.  The spec's error taxonomy maps onto these:
`NotCallableError` is `notCallable` (wrap time, line 63),
`NoAnnotationsError` is `noAnns` (line 110),
`UnknownKeywordArgumentError` is `unknownKeyword` (line 123),
`TypeMismatchError` is `keywordTypeMismatch` (line 133) or
`positionalTypeMismatch` (line 159),
`PositionalAnnotationMissingError` is `positionalAnnMissing` (line 150).
`indexOutOfRange` is the `IndexError` Python itself raises when
`function_positional_argument_list[index]` is evaluated at an index
past the end of the list (line 141). -/
inductive CheckError where
  | notCallable (funcName : String)
  | noAnns (funcName : String)
  | unknownKeyword (funcName : String) (kw : String)
  | keywordTypeMismatch (kw : String) (required : PyType) (actual : PyType)
  | positionalAnnMissing (index : Nat) (paramName : String)
  | positionalTypeMismatch (index : Nat) (paramName : String)
      (required : PyType) (actual : PyType)
  | indexOutOfRange (index : Nat)
deriving DecidableEq

/-- Python `str.strip(chars)` on the left end: drop leading characters
that belong to the given set. -/
def stripLeftChars (chars : List Char) : List Char → List Char
  | [] => []
  | c :: cs => if c ∈ chars then stripLeftChars chars cs else c :: cs

/-- Python `str.strip(chars)`: drop from both ends every character that
belongs to the set of characters of `chars`. -/
def pyStrip (s chars : String) : String :=
  String.mk ((stripLeftChars chars.toList
    ((stripLeftChars chars.toList s.toList).reverse)).reverse)

/-- Source `get_clear_type_name` (lines 72-75):
`raw.strip("<class ").strip("'").strip("'>")`. -/
def get_clear_type_name (raw : String) : String :=
  pyStrip (pyStrip (pyStrip raw "<class ") "\x27") "\x27>"

/-- The exact message string each raise site formats. -/
def CheckError.message : CheckError → String
  | .notCallable n => "Not a function: " ++ n
  | .noAnns n => "Type hint required for function \x27" ++ n ++ "\x27"
  | .unknownKeyword n k =>
      "Function \x27" ++ n ++ "\x27 got an unexpected keyword argument \x27"
        ++ k ++ "\x27, perhaps it doesn\x27t have type hint ?"
  | .keywordTypeMismatch k t a =>
      "Keyword argument \x27" ++ k ++ "\x27 requires type "
        ++ get_clear_type_name (strOfPyType t) ++ ", but got "
        ++ get_clear_type_name (strOfPyType a)
  | .positionalAnnMissing i p =>
      "No type information for positional argument at " ++ toString i
        ++ ", possibly name \x27" ++ p ++ "\x27, consider add a type hint for it"
  | .positionalTypeMismatch i p t a =>
      "Positional argument at pos " ++ toString i ++ ", possibly name \x27"
        ++ p ++ "\x27, requires type \x27" ++ get_clear_type_name (strOfPyType t)
        ++ "\x27, but got \x27" ++ get_clear_type_name (strOfPyType a) ++ "\x27"
  | .indexOutOfRange _ => "list index out of range"

/-- Which Python exception class each raise site raises: every explicit
`raise` of the source is a `TypeError`; the out-of-range list subscript
is an `IndexError` raised by Python itself. -/
def CheckError.pyExceptionName : CheckError → String
  | .indexOutOfRange _ => "IndexError"
  | _ => "TypeError"

/-- One iteration of the keyword loop (lines 117-137): look the name up
in `type_annotations` (absence raises the unexpected-keyword
`TypeError`), skip when the annotation is not a type object
(`if not isinstance(required_type, type): continue`), otherwise compare
the runtime type to the required type by (dis)equality. -/
def checkKeywordArg (funcName : String) (anns : List (String × PyAnn))
    (kv : String × PyValue) : Except CheckError Unit :=
  match lookupAnn anns kv.1 with
  | none => .error (.unknownKeyword funcName kv.1)
  | some (.typeObj t) =>
      if kv.2.typeOf ≠ t then
        .error (.keywordTypeMismatch kv.1 t kv.2.typeOf)
      else
        .ok ()
  | some _ => .ok ()

/-- One iteration of the positional loop (lines 144-163): subscript the
positional-name list (out of range raises `IndexError`), look the name
up in `type_annotations` (absence raises the no-type-information
`TypeError`), skip non-type annotations, otherwise compare types. -/
def checkPositionalArg (posList : List String) (anns : List (String × PyAnn))
    (index : Nat) (v : PyValue) : Except CheckError Unit :=
  match posList[index]? with
  | none => .error (.indexOutOfRange index)
  | some pname =>
      match lookupAnn anns pname with
      | none => .error (.positionalAnnMissing index pname)
      | some (.typeObj t) =>
          if v.typeOf ≠ t then
            .error (.positionalTypeMismatch index pname t v.typeOf)
          else
            .ok ()
      | some _ => .ok ()

/-- Run a list of per-argument checks in order; the first raise aborts. -/
def runChecks : List (Except CheckError Unit) → Except CheckError Unit
  | [] => .ok ()
  | c :: cs =>
      match c with
      | .error e => .error e
      | .ok _ => runChecks cs

/-- Python `enumerate` starting at `i`. -/
def enumerateFrom (i : Nat) : List α → List (Nat × α)
  | [] => []
  | a :: as => (i, a) :: enumerateFrom (i + 1) as

/-- The wrapper `check_type` (lines 108-166): the empty-annotations
guard, the keyword loop, the positional loop, then the delegated call
`func(*args, **kwargs)` with the unmodified arguments. -/
def check_type (f : PyFunction) (args : List PyValue)
    (kwargs : List (String × PyValue)) : Except CheckError PyValue :=
  let anns := annsOf f
  if anns.length = 0 then
    .error (.noAnns f.name)
  else
    match runChecks (kwargs.map (fun kv => checkKeywordArg f.name anns kv)) with
    | .error e => .error e
    | .ok _ =>
        match runChecks ((enumerateFrom 0 args).map
            (fun iv => checkPositionalArg (posNames f) anns iv.1 iv.2)) with
        | .error e => .error e
        | .ok _ => .ok (f.call args kwargs)

/-- Source `get_clear_argument_signature` (lines 78-86): format one parameter as
`KIND    name = default`, showing `?` when the default is
`inspect._empty` (whose `str()` is `<class 'inspect._empty'>`).  The
source also computes the cleaned annotation string here but never uses
it in the returned string. -/
def get_clear_argument_signature (p : Param) : String :=
  let rawDefault : String :=
    match p.defaultStr with
    | none => "<class \x27inspect._empty\x27>"
    | some s => s
  let parameter_default := get_clear_type_name rawDefault
  let parameter_default :=
    if parameter_default = "inspect._empty" then "?" else parameter_default
  strOfKind p.kind ++ "    " ++ p.name ++ " = " ++ parameter_default

/-- Python `sep.join(strings)`. -/
def joinWith (sep : String) : List String → String
  | [] => ""
  | [s] => s
  | s :: rest => s ++ (sep ++ joinWith sep rest)

/-- Source `function_param_signature` (line 91): the formatted parameter lines
joined by `", \n    "`, wrapped in `(\n    ` and `\n  )`. -/
def function_param_signature (params : List Param) : String :=
  "(\n    " ++ joinWith ", \n    " (params.map get_clear_argument_signature)
    ++ "\n  )"

/-- Source `function_signature` (line 92): `def NAME(...): ...`. -/
def function_signature (f : PyFunction) : String :=
  "def " ++ f.name ++ function_param_signature f.params ++ ": ..."

/-- Lines 98-99: a placeholder replaces a missing `__doc__`. -/
def docAfterNoneFill (d : Option String) : String :=
  match d with
  | none => "\n  *** There\x27s no documentation for function ***\n"
  | some s => s

/-- One line of the parameters-and-returns block (lines 102-104):
`  name: cleanedType` followed by `,\n` except on the last entry, which
gets `\n`. -/
def annEntry (total index : Nat) (pa : String × PyAnn) : String :=
  "  " ++ pa.1 ++ ": " ++ get_clear_type_name (strOfAnn pa.2)
    ++ (if index + 1 < total then ",\n" else "\n")

/-- The loop of lines 102-104 over `type_annotations.items()`. -/
def annEntriesFrom (total : Nat) (index : Nat) :
    List (String × PyAnn) → String
  | [] => ""
  | pa :: rest => annEntry total index pa ++ annEntriesFrom total (index + 1) rest

/-- The synthesized `__doc__` (lines 98-104): header with the function
name, original documentation (or placeholder), the reconstructed
pseudo-declaration, and the parameters-and-returns block. -/
def synthesizedDoc (f : PyFunction) : String :=
  "Documentation for function \"" ++ f.name ++ "\":\n"
    ++ docAfterNoneFill f.doc
    ++ "\nSignature:\n  " ++ function_signature f
    ++ "\n\nParameters & Returns:\n"
    ++ annEntriesFrom (annsOf f).length 0 (annsOf f)

/-- The artifact `typecheck` produces: the rewritten documentation and
the wrapped callable. -/
structure Wrapped where
  doc : String
  call : List PyValue → List (String × PyValue) → Except CheckError PyValue

/-- The decorator `typecheck` (lines 51-167): reject non-functions at
wrap time (`inspect.isfunction`, line 62 — note this is stricter than
"invocable": builtins, bound methods and callable objects are not
functions), rewrite the documentation, and return `check_type`. -/
def typecheck (f : PyFunction) : Except CheckError Wrapped :=
  if f.isFunction then
    .ok ⟨synthesizedDoc f, check_type f⟩
  else
    .error (.notCallable f.name)

/-! ## Substring and ordered-containment predicates -/

/-- Does `h` start with `n`? -/
def beginsWith : List Char → List Char → Bool
  | [], _ => true
  | _ :: _, [] => false
  | c :: cs, d :: ds => decide (c = d) && beginsWith cs ds

/-- Does `n` occur contiguously anywhere in `h`? -/
def containsSeq (needle : List Char) : List Char → Bool
  | [] => beginsWith needle []
  | c :: cs => beginsWith needle (c :: cs) || containsSeq needle cs

/-- Executable substring test on strings. -/
def strContains (hay needle : String) : Bool :=
  containsSeq needle.toList hay.toList

/-- The string `needle` occurs as a contiguous substring of `hay`. -/
def ContainsStr (hay needle : String) : Prop :=
  ∃ a b, hay = a ++ needle ++ b

/-- The strings of the list all occur in `hay`, disjointly and in the
given order. -/
def ContainsInOrder : String → List String → Prop
  | _, [] => True
  | hay, n :: ns => ∃ a b, hay = a ++ n ++ b ∧ ContainsInOrder b ns

/-! ## Concrete Python objects used by the witnesses

`bool` is a genuine strict subclass of `int` in Python, which makes it
the natural witness for the subclass-rejection policy. -/

def intT : PyType := ⟨"int", ["object"]⟩

def strT : PyType := ⟨"str", ["object"]⟩

def boolT : PyType := ⟨"bool", ["int", "object"]⟩

def noneT : PyType := ⟨"NoneType", ["object"]⟩

def vInt : PyValue := ⟨intT, 3⟩

def vInt2 : PyValue := ⟨intT, 4⟩

def vStr : PyValue := ⟨strT, 0⟩

def vBool : PyValue := ⟨boolT, 1⟩

def vNone : PyValue := ⟨noneT, 0⟩

/-- Python `def add(a: int, b: int) -> int: return a + b`, the shape of the
spec's exact-type-enforcement test. -/
def addF : PyFunction :=
  { name := "add"
    doc := none
    params := [⟨"a", .POSITIONAL_OR_KEYWORD, some (.typeObj intT), none⟩,
               ⟨"b", .POSITIONAL_OR_KEYWORD, some (.typeObj intT), none⟩]
    retAnn := some (.typeObj intT)
    isFunction := true
    isCallable := true
    call := fun as ks =>
      ⟨intT, (as.map PyValue.payload).sum + (ks.map (fun kv => kv.2.payload)).sum⟩ }

/-- Python `def f() -> int: ...` — zero annotated parameters, but a return
annotation, so `__annotations__` is `{"return": int}`, not empty. -/
def retOnlyF : PyFunction :=
  { name := "f"
    doc := none
    params := []
    retAnn := some (.typeObj intT)
    isFunction := true
    isCallable := true
    call := fun _ _ => vNone }

/-- Python `def g(x): ...` — no annotations at all. -/
def noAnnF : PyFunction :=
  { name := "g"
    doc := none
    params := [⟨"x", .POSITIONAL_OR_KEYWORD, none, none⟩]
    retAnn := none
    isFunction := true
    isCallable := true
    call := fun _ _ => vNone }

/-- Python `def h1(a: int): ...` — a single declared parameter. -/
def oneIntF : PyFunction :=
  { name := "h1"
    doc := none
    params := [⟨"a", .POSITIONAL_OR_KEYWORD, some (.typeObj intT), none⟩]
    retAnn := none
    isFunction := true
    isCallable := true
    call := fun _ _ => vNone }

/-- Python `def h2(a: int, b): ...` — second parameter unannotated. -/
def mixedF : PyFunction :=
  { name := "h2"
    doc := none
    params := [⟨"a", .POSITIONAL_OR_KEYWORD, some (.typeObj intT), none⟩,
               ⟨"b", .POSITIONAL_OR_KEYWORD, none, none⟩]
    retAnn := none
    isFunction := true
    isCallable := true
    call := fun _ _ => vNone }

/-- The builtin `len`: invocable, but `inspect.isfunction(len)` is
`False` because a builtin is not a Python function object. -/
def lenB : PyFunction :=
  { name := "len"
    doc := none
    params := [⟨"obj", .POSITIONAL_ONLY, none, none⟩]
    retAnn := none
    isFunction := false
    isCallable := true
    call := fun _ _ => vInt }

/-- Python `def myfunc(a: int): ...` — used to show mismatch messages do not
name the callable. -/
def myF : PyFunction :=
  { name := "myfunc"
    doc := none
    params := [⟨"a", .POSITIONAL_OR_KEYWORD, some (.typeObj intT), none⟩]
    retAnn := none
    isFunction := true
    isCallable := true
    call := fun _ _ => vNone }

/-- Python `def anyf(x: typing.Any): ...` — the explicit opt-out. -/
def anyF : PyFunction :=
  { name := "anyf"
    doc := none
    params := [⟨"x", .POSITIONAL_OR_KEYWORD, some .anySentinel, none⟩]
    retAnn := none
    isFunction := true
    isCallable := true
    call := fun _ _ => vNone }

/-- Python `def u(a: int | str, b: "int"): ...` — union and string annotations,
neither of which is a runtime type object. -/
def unionF : PyFunction :=
  { name := "u"
    doc := none
    params := [⟨"a", .POSITIONAL_OR_KEYWORD, some (.unionAnn "int | str"), none⟩,
               ⟨"b", .POSITIONAL_OR_KEYWORD, some (.strAnn "int"), none⟩]
    retAnn := none
    isFunction := true
    isCallable := true
    call := fun _ _ => vNone }

/-! ## Helper lemmas -/

theorem strToList_append (s t : String) :
    (s ++ t).toList = s.toList ++ t.toList := rfl

theorem containsSeq_nil_needle (h : List Char) : containsSeq [] h = true := by
  cases h <;> simp [containsSeq, beginsWith]

theorem beginsWith_append_self (n r : List Char) : beginsWith n (n ++ r) = true := by
  induction n with
  | nil => rfl
  | cons c cs ih => simp [beginsWith, ih]

theorem containsSeq_of_decomp (n l r : List Char) :
    containsSeq n (l ++ n ++ r) = true := by
  induction l with
  | nil =>
      cases n with
      | nil => simpa using containsSeq_nil_needle r
      | cons c cs =>
          show (beginsWith (c :: cs) ((c :: cs) ++ r)
            || containsSeq (c :: cs) (cs ++ r)) = true
          rw [beginsWith_append_self]
          rfl
  | cons x xs ih =>
      show (beginsWith n (x :: (xs ++ n ++ r)) || containsSeq n (xs ++ n ++ r)) = true
      rw [ih]
      simp

theorem containsStr_toBool {hay needle : String} (h : ContainsStr hay needle) :
    strContains hay needle = true := by
  obtain ⟨a, b, rfl⟩ := h
  show containsSeq needle.toList ((a ++ needle ++ b).toList) = true
  have he : (a ++ needle ++ b).toList = a.toList ++ needle.toList ++ b.toList := by
    simp [strToList_append]
  rw [he]
  exact containsSeq_of_decomp _ _ _

theorem not_containsStr {hay needle : String}
    (h : strContains hay needle = false) : ¬ ContainsStr hay needle :=
  fun hc => by simp [containsStr_toBool hc] at h

theorem cio_cons {hay n : String} {ns : List String} (a b : String)
    (hh : hay = a ++ n ++ b) (h : ContainsInOrder b ns) :
    ContainsInOrder hay (n :: ns) := ⟨a, b, hh, h⟩

theorem cio_prepend (p : String) {hay : String} {ns : List String}
    (h : ContainsInOrder hay ns) : ContainsInOrder (p ++ hay) ns := by
  cases ns with
  | nil => trivial
  | cons n ns =>
      obtain ⟨a, b, rfl, hb⟩ := h
      exact ⟨p ++ a, b, by simp [String.append_assoc], hb⟩

theorem cio_extend (s : String) {hay : String} {ns : List String}
    (h : ContainsInOrder hay ns) : ContainsInOrder (hay ++ s) ns := by
  induction ns generalizing hay with
  | nil => trivial
  | cons n ns ih =>
      obtain ⟨a, b, rfl, hb⟩ := h
      exact ⟨a, b ++ s, by simp [String.append_assoc], ih hb⟩

theorem cio_append {h1 h2 : String} {ns1 ns2 : List String}
    (hc1 : ContainsInOrder h1 ns1) (hc2 : ContainsInOrder h2 ns2) :
    ContainsInOrder (h1 ++ h2) (ns1 ++ ns2) := by
  induction ns1 generalizing h1 with
  | nil => exact cio_prepend h1 hc2
  | cons n ns ih =>
      obtain ⟨a, b, rfl, hb⟩ := hc1
      exact ⟨a, b ++ h2, by simp [String.append_assoc], ih hb⟩

theorem cio_joinWith (sep : String) (l : List String) :
    ContainsInOrder (joinWith sep l) l := by
  induction l with
  | nil => trivial
  | cons s rest ih =>
      cases rest with
      | nil =>
          refine ⟨"", "", ?_, trivial⟩
          show s = "" ++ s ++ ""
          simp
      | cons t ts =>
          refine ⟨"", sep ++ joinWith sep (t :: ts), ?_, cio_prepend sep ih⟩
          show s ++ (sep ++ joinWith sep (t :: ts))
            = "" ++ s ++ (sep ++ joinWith sep (t :: ts))
          simp

theorem cio_annEntriesFrom (total : Nat) (anns : List (String × PyAnn)) :
    ∀ index, ContainsInOrder (annEntriesFrom total index anns)
      (anns.map (fun pa =>
        "  " ++ pa.1 ++ ": " ++ get_clear_type_name (strOfAnn pa.2))) := by
  induction anns with
  | nil => intro _; trivial
  | cons pa rest ih =>
      intro index
      refine ⟨"", (if index + 1 < total then ",\n" else "\n")
        ++ annEntriesFrom total (index + 1) rest, ?_, ?_⟩
      · show annEntry total index pa ++ annEntriesFrom total (index + 1) rest
          = "" ++ ("  " ++ pa.1 ++ ": " ++ get_clear_type_name (strOfAnn pa.2))
            ++ ((if index + 1 < total then ",\n" else "\n")
              ++ annEntriesFrom total (index + 1) rest)
        simp [annEntry, String.append_assoc]
      · exact cio_prepend _ (ih (index + 1))

theorem runChecks_ok_iff (l : List (Except CheckError Unit)) :
    runChecks l = .ok () ↔ ∀ x ∈ l, x = .ok () := by
  induction l with
  | nil => simp [runChecks]
  | cons c cs ih =>
      cases c with
      | error e => simp [runChecks]
      | ok u => cases u; simp [runChecks, ih]

theorem runChecks_append_ok (l1 l2 : List (Except CheckError Unit))
    (h : ∀ x ∈ l1, x = .ok ()) :
    runChecks (l1 ++ l2) = runChecks l2 := by
  induction l1 with
  | nil => rfl
  | cons c cs ih =>
      have hc : c = .ok () := h c (by simp)
      subst hc
      simpa [runChecks] using ih (fun x hx => h x (by simp [hx]))

theorem runChecks_error_mem {l : List (Except CheckError Unit)} {e : CheckError}
    (h : runChecks l = .error e) : Except.error e ∈ l := by
  induction l with
  | nil => simp [runChecks] at h
  | cons c cs ih =>
      cases c with
      | error e' =>
          simp only [runChecks] at h
          injection h with h
          simp [h]
      | ok u =>
          cases u
          simp only [runChecks] at h
          simp [ih h]

theorem enumerateFrom_append (i : Nat) (l1 l2 : List α) :
    enumerateFrom i (l1 ++ l2)
      = enumerateFrom i l1 ++ enumerateFrom (i + l1.length) l2 := by
  induction l1 generalizing i with
  | nil => simp [enumerateFrom]
  | cons a as ih =>
      have he : i + 1 + as.length = i + (as.length + 1) := by omega
      show (i, a) :: enumerateFrom (i + 1) (as ++ l2)
        = (i, a) :: (enumerateFrom (i + 1) as ++ enumerateFrom (i + (as.length + 1)) l2)
      rw [ih (i + 1), he]

theorem check_type_noAnns (f : PyFunction) (args : List PyValue)
    (kwargs : List (String × PyValue)) (h : (annsOf f).length = 0) :
    check_type f args kwargs = .error (.noAnns f.name) := by
  unfold check_type
  simp [h]

theorem check_type_ok_of (f : PyFunction) (args : List PyValue)
    (kwargs : List (String × PyValue))
    (h0 : (annsOf f).length ≠ 0)
    (hK : ∀ kv ∈ kwargs, checkKeywordArg f.name (annsOf f) kv = .ok ())
    (hP : ∀ iv ∈ enumerateFrom 0 args,
        checkPositionalArg (posNames f) (annsOf f) iv.1 iv.2 = .ok ()) :
    check_type f args kwargs = .ok (f.call args kwargs) := by
  unfold check_type
  rw [if_neg h0]
  have h1 : runChecks (kwargs.map
      (fun kv => checkKeywordArg f.name (annsOf f) kv)) = .ok () :=
    (runChecks_ok_iff _).2 (by
      intro x hx
      obtain ⟨kv, hkv, rfl⟩ := List.mem_map.1 hx
      exact hK kv hkv)
  rw [h1]
  have h2 : runChecks ((enumerateFrom 0 args).map
      (fun iv => checkPositionalArg (posNames f) (annsOf f) iv.1 iv.2)) = .ok () :=
    (runChecks_ok_iff _).2 (by
      intro x hx
      obtain ⟨iv, hiv, rfl⟩ := List.mem_map.1 hx
      exact hP iv hiv)
  rw [h2]

theorem check_type_ok_inv {f : PyFunction} {args : List PyValue}
    {kwargs : List (String × PyValue)} {v : PyValue}
    (h : check_type f args kwargs = .ok v) :
    (annsOf f).length ≠ 0
    ∧ (∀ kv ∈ kwargs, checkKeywordArg f.name (annsOf f) kv = .ok ())
    ∧ (∀ iv ∈ enumerateFrom 0 args,
        checkPositionalArg (posNames f) (annsOf f) iv.1 iv.2 = .ok ())
    ∧ v = f.call args kwargs := by
  by_cases h0 : (annsOf f).length = 0
  · rw [check_type_noAnns f args kwargs h0] at h
    exact absurd h (by simp)
  · unfold check_type at h
    rw [if_neg h0] at h
    rcases hrk : runChecks (kwargs.map
        (fun kv => checkKeywordArg f.name (annsOf f) kv)) with e | u
    · rw [hrk] at h
      exact absurd h (by simp)
    · cases u
      rw [hrk] at h
      rcases hrp : runChecks ((enumerateFrom 0 args).map
          (fun iv => checkPositionalArg (posNames f) (annsOf f) iv.1 iv.2)) with e | u
      · rw [hrp] at h
        exact absurd h (by simp)
      · cases u
        rw [hrp] at h
        refine ⟨h0, ?_, ?_, ?_⟩
        · intro kv hkv
          exact (runChecks_ok_iff _).1 hrk _ (List.mem_map.2 ⟨kv, hkv, rfl⟩)
        · intro iv hiv
          exact (runChecks_ok_iff _).1 hrp _ (List.mem_map.2 ⟨iv, hiv, rfl⟩)
        · injection h with h
          exact h.symm

theorem check_type_kw_error (f : PyFunction) (args : List PyValue)
    (kwpre kwpost : List (String × PyValue)) (k : String) (v : PyValue)
    (e : CheckError)
    (h0 : (annsOf f).length ≠ 0)
    (hpre : ∀ kv ∈ kwpre, checkKeywordArg f.name (annsOf f) kv = .ok ())
    (hbad : checkKeywordArg f.name (annsOf f) (k, v) = .error e) :
    check_type f args (kwpre ++ (k, v) :: kwpost) = .error e := by
  unfold check_type
  rw [if_neg h0]
  have h1 : runChecks (((kwpre ++ (k, v) :: kwpost)).map
      (fun kv => checkKeywordArg f.name (annsOf f) kv)) = .error e := by
    rw [List.map_append]
    rw [runChecks_append_ok _ _ (by
      intro x hx
      obtain ⟨kv, hkv, rfl⟩ := List.mem_map.1 hx
      exact hpre kv hkv)]
    simp [runChecks, hbad]
  rw [h1]

theorem check_type_pos_error (f : PyFunction)
    (kwargs : List (String × PyValue)) (pre post : List PyValue) (v : PyValue)
    (e : CheckError)
    (h0 : (annsOf f).length ≠ 0)
    (hkw : ∀ kv ∈ kwargs, checkKeywordArg f.name (annsOf f) kv = .ok ())
    (hpre : ∀ iv ∈ enumerateFrom 0 pre,
        checkPositionalArg (posNames f) (annsOf f) iv.1 iv.2 = .ok ())
    (hbad : checkPositionalArg (posNames f) (annsOf f) pre.length v = .error e) :
    check_type f (pre ++ v :: post) kwargs = .error e := by
  unfold check_type
  rw [if_neg h0]
  have h1 : runChecks (kwargs.map
      (fun kv => checkKeywordArg f.name (annsOf f) kv)) = .ok () :=
    (runChecks_ok_iff _).2 (by
      intro x hx
      obtain ⟨kv, hkv, rfl⟩ := List.mem_map.1 hx
      exact hkw kv hkv)
  rw [h1]
  have h2 : runChecks ((enumerateFrom 0 (pre ++ v :: post)).map
      (fun iv => checkPositionalArg (posNames f) (annsOf f) iv.1 iv.2)) = .error e := by
    rw [enumerateFrom_append, List.map_append]
    rw [runChecks_append_ok _ _ (by
      intro x hx
      obtain ⟨iv, hiv, rfl⟩ := List.mem_map.1 hx
      exact hpre iv hiv)]
    simp [enumerateFrom, runChecks, Nat.zero_add, hbad]
  rw [h2]

theorem checkKeywordArg_error_shape {fn : String} {anns : List (String × PyAnn)}
    {kv : String × PyValue} {e : CheckError}
    (h : checkKeywordArg fn anns kv = .error e) :
    (∃ k, e = .unknownKeyword fn k) ∨ (∃ k t a, e = .keywordTypeMismatch k t a) := by
  unfold checkKeywordArg at h
  split at h
  · injection h with h
    exact Or.inl ⟨kv.1, h.symm⟩
  · split at h
    · injection h with h
      exact Or.inr ⟨kv.1, _, _, h.symm⟩
    · exact absurd h (by simp)
  · exact absurd h (by simp)

theorem checkPositionalArg_error_shape {posList : List String}
    {anns : List (String × PyAnn)} {i : Nat} {v : PyValue} {e : CheckError}
    (h : checkPositionalArg posList anns i v = .error e) :
    (∃ j, e = .indexOutOfRange j) ∨ (∃ j p, e = .positionalAnnMissing j p)
      ∨ (∃ j p t a, e = .positionalTypeMismatch j p t a) := by
  unfold checkPositionalArg at h
  split at h
  · injection h with h
    exact Or.inl ⟨i, h.symm⟩
  · split at h
    · injection h with h
      exact Or.inr (Or.inl ⟨i, _, h.symm⟩)
    · split at h
      · injection h with h
        exact Or.inr (Or.inr ⟨i, _, _, _, h.symm⟩)
      · exact absurd h (by simp)
    · exact absurd h (by simp)

theorem checkKeywordArg_unknown (fn : String) {anns : List (String × PyAnn)}
    {k : String} (v : PyValue) (hl : lookupAnn anns k = none) :
    checkKeywordArg fn anns (k, v) = .error (.unknownKeyword fn k) := by
  simp only [checkKeywordArg, hl]

theorem checkKeywordArg_mismatch (fn : String) {anns : List (String × PyAnn)}
    {k : String} {t : PyType} {v : PyValue}
    (hl : lookupAnn anns k = some (.typeObj t)) (hne : v.typeOf ≠ t) :
    checkKeywordArg fn anns (k, v) = .error (.keywordTypeMismatch k t v.typeOf) := by
  simp only [checkKeywordArg, hl]
  rw [if_pos hne]

theorem checkKeywordArg_match_ok (fn : String) {anns : List (String × PyAnn)}
    {k : String} {t : PyType} {v : PyValue}
    (hl : lookupAnn anns k = some (.typeObj t)) (heq : v.typeOf = t) :
    checkKeywordArg fn anns (k, v) = .ok () := by
  simp only [checkKeywordArg, hl]
  rw [if_neg (by simp [heq])]

theorem checkKeywordArg_skip (fn : String) {anns : List (String × PyAnn)}
    {k : String} {a : PyAnn} (v : PyValue)
    (hl : lookupAnn anns k = some a) (ha : PyAnn.isTypeObj a = false) :
    checkKeywordArg fn anns (k, v) = .ok () := by
  rcases a with t | _ | s | r
  · exact absurd ha (by simp [PyAnn.isTypeObj])
  · simp only [checkKeywordArg, hl]
  · simp only [checkKeywordArg, hl]
  · simp only [checkKeywordArg, hl]

theorem checkPositionalArg_oob {posList : List String}
    (anns : List (String × PyAnn)) {i : Nat} (v : PyValue)
    (hp : posList[i]? = none) :
    checkPositionalArg posList anns i v = .error (.indexOutOfRange i) := by
  simp only [checkPositionalArg, hp]

theorem checkPositionalArg_missing {posList : List String}
    {anns : List (String × PyAnn)} {i : Nat} {pname : String} (v : PyValue)
    (hp : posList[i]? = some pname) (hl : lookupAnn anns pname = none) :
    checkPositionalArg posList anns i v = .error (.positionalAnnMissing i pname) := by
  simp only [checkPositionalArg, hp, hl]

theorem checkPositionalArg_mismatch {posList : List String}
    {anns : List (String × PyAnn)} {i : Nat} {pname : String} {t : PyType}
    {v : PyValue}
    (hp : posList[i]? = some pname)
    (hl : lookupAnn anns pname = some (.typeObj t)) (hne : v.typeOf ≠ t) :
    checkPositionalArg posList anns i v
      = .error (.positionalTypeMismatch i pname t v.typeOf) := by
  simp only [checkPositionalArg, hp, hl]
  rw [if_pos hne]

theorem checkPositionalArg_match_ok {posList : List String}
    {anns : List (String × PyAnn)} {i : Nat} {pname : String} {t : PyType}
    {v : PyValue}
    (hp : posList[i]? = some pname)
    (hl : lookupAnn anns pname = some (.typeObj t)) (heq : v.typeOf = t) :
    checkPositionalArg posList anns i v = .ok () := by
  simp only [checkPositionalArg, hp, hl]
  rw [if_neg (by simp [heq])]

theorem checkPositionalArg_skip {posList : List String}
    {anns : List (String × PyAnn)} {i : Nat} {pname : String} {a : PyAnn}
    (v : PyValue)
    (hp : posList[i]? = some pname)
    (hl : lookupAnn anns pname = some a) (ha : PyAnn.isTypeObj a = false) :
    checkPositionalArg posList anns i v = .ok () := by
  rcases a with t | _ | s | r
  · exact absurd ha (by simp [PyAnn.isTypeObj])
  · simp only [checkPositionalArg, hp, hl]
  · simp only [checkPositionalArg, hp, hl]
  · simp only [checkPositionalArg, hp, hl]

instance {ε α : Type} [DecidableEq ε] [DecidableEq α] : DecidableEq (Except ε α) :=
  fun x y =>
    match x, y with
    | .error e, .error e' =>
        if h : e = e' then .isTrue (by rw [h])
        else .isFalse (by intro hc; injection hc; exact h (by assumption))
    | .error _, .ok _ => .isFalse (fun hc => Except.noConfusion hc)
    | .ok _, .error _ => .isFalse (fun hc => Except.noConfusion hc)
    | .ok a, .ok b =>
        if h : a = b then .isTrue (by rw [h])
        else .isFalse (by intro hc; injection hc; exact h (by assumption))

instance (s t : PyType) : Decidable (isStrictSubclass s t) := by
  unfold isStrictSubclass
  infer_instance

/-! ## The claims -/

/-- C1: for every wrapped call and every supplied argument (keyword or
positional) whose parameter's declared type is a concrete type (not the
ANY sentinel), if the argument's runtime type is not exactly equal to
the declared type the call fails with a TypeMismatchError (in
particular, an instance of a strict subclass of the declared type is
rejected), and exact type equality lets the argument pass its check:
per-argument mismatch and pass behaviour on both the keyword and the
positional paths, impossibility of a successful call in the presence of
a mismatched argument, and the precise TypeMismatchError raised when the
mismatched argument is the first failing one. -/
theorem C1_exact_type_enforcement
    (f : PyFunction) (k pname : String) (v : PyValue) (t : PyType) (i : Nat)
    (r : PyValue) (args pre post : List PyValue)
    (kwargs kwpre kwpost : List (String × PyValue)) :
    (lookupAnn (annsOf f) k = some (.typeObj t) → v.typeOf ≠ t →
      checkKeywordArg f.name (annsOf f) (k, v)
        = .error (.keywordTypeMismatch k t v.typeOf))
    ∧ (lookupAnn (annsOf f) k = some (.typeObj t) → isStrictSubclass v.typeOf t →
      checkKeywordArg f.name (annsOf f) (k, v)
        = .error (.keywordTypeMismatch k t v.typeOf))
    ∧ (lookupAnn (annsOf f) k = some (.typeObj t) → v.typeOf = t →
      checkKeywordArg f.name (annsOf f) (k, v) = .ok ())
    ∧ ((posNames f)[i]? = some pname →
      lookupAnn (annsOf f) pname = some (.typeObj t) → v.typeOf ≠ t →
      checkPositionalArg (posNames f) (annsOf f) i v
        = .error (.positionalTypeMismatch i pname t v.typeOf))
    ∧ ((posNames f)[i]? = some pname →
      lookupAnn (annsOf f) pname = some (.typeObj t) → v.typeOf = t →
      checkPositionalArg (posNames f) (annsOf f) i v = .ok ())
    ∧ ((k, v) ∈ kwargs → lookupAnn (annsOf f) k = some (.typeObj t) →
      v.typeOf ≠ t → check_type f args kwargs ≠ .ok r)
    ∧ ((i, v) ∈ enumerateFrom 0 args → (posNames f)[i]? = some pname →
      lookupAnn (annsOf f) pname = some (.typeObj t) → v.typeOf ≠ t →
      check_type f args kwargs ≠ .ok r)
    ∧ ((annsOf f).length ≠ 0 →
      (∀ kv ∈ kwpre, checkKeywordArg f.name (annsOf f) kv = .ok ()) →
      lookupAnn (annsOf f) k = some (.typeObj t) → v.typeOf ≠ t →
      check_type f args (kwpre ++ (k, v) :: kwpost)
        = .error (.keywordTypeMismatch k t v.typeOf))
    ∧ ((annsOf f).length ≠ 0 →
      (∀ kv ∈ kwargs, checkKeywordArg f.name (annsOf f) kv = .ok ()) →
      (∀ iv ∈ enumerateFrom 0 pre,
        checkPositionalArg (posNames f) (annsOf f) iv.1 iv.2 = .ok ()) →
      (posNames f)[pre.length]? = some pname →
      lookupAnn (annsOf f) pname = some (.typeObj t) → v.typeOf ≠ t →
      check_type f (pre ++ v :: post) kwargs
        = .error (.positionalTypeMismatch pre.length pname t v.typeOf)) := by
  refine ⟨?_, ?_, ?_, ?_, ?_, ?_, ?_, ?_, ?_⟩
  · intro hl hne
    exact checkKeywordArg_mismatch f.name hl hne
  · intro hl hs
    exact checkKeywordArg_mismatch f.name hl hs.2
  · intro hl heq
    exact checkKeywordArg_match_ok f.name hl heq
  · intro hp hl hne
    exact checkPositionalArg_mismatch hp hl hne
  · intro hp hl heq
    exact checkPositionalArg_match_ok hp hl heq
  · intro hmem hl hne hok
    obtain ⟨-, hK, -, -⟩ := check_type_ok_inv hok
    have hx := hK (k, v) hmem
    rw [checkKeywordArg_mismatch f.name hl hne] at hx
    exact absurd hx (by simp)
  · intro hmem hp hl hne hok
    obtain ⟨-, -, hP, -⟩ := check_type_ok_inv hok
    have hx := hP (i, v) hmem
    rw [checkPositionalArg_mismatch hp hl hne] at hx
    exact absurd hx (by simp)
  · intro h0 hpre hl hne
    exact check_type_kw_error f args kwpre kwpost k v _ h0 hpre
      (checkKeywordArg_mismatch f.name hl hne)
  · intro h0 hkw hpre hp hl hne
    exact check_type_pos_error f kwargs pre post v _ h0 hkw hpre
      (checkPositionalArg_mismatch hp hl hne)

/-- Witness for C1 on `add(a: int, b: int) -> int`: a `str` keyword
argument and a `str` positional argument are rejected with the exact
mismatch errors, a `bool` (strict subclass of `int`) is rejected too,
and exact `int` arguments pass. -/
theorem C1_witness :
    checkKeywordArg addF.name (annsOf addF) ("a", vStr)
      = .error (.keywordTypeMismatch "a" intT strT)
    ∧ checkKeywordArg addF.name (annsOf addF) ("a", vBool)
      = .error (.keywordTypeMismatch "a" intT boolT)
    ∧ checkKeywordArg addF.name (annsOf addF) ("a", vInt) = .ok ()
    ∧ checkPositionalArg (posNames addF) (annsOf addF) 0 vStr
      = .error (.positionalTypeMismatch 0 "a" intT strT)
    ∧ checkPositionalArg (posNames addF) (annsOf addF) 0 vInt = .ok ()
    ∧ check_type addF [] [("a", vStr)]
      = .error (.keywordTypeMismatch "a" intT strT)
    ∧ check_type addF [vInt, vStr] []
      = .error (.positionalTypeMismatch 1 "b" intT strT) := by
  refine ⟨?_, ?_, ?_, ?_, ?_, ?_, ?_⟩
  · exact (C1_exact_type_enforcement addF "a" "a" vStr intT 0 vNone [] [] []
      [] [] []).1 (by decide) (by decide)
  · exact (C1_exact_type_enforcement addF "a" "a" vBool intT 0 vNone [] [] []
      [] [] []).2.1 (by decide) (by decide)
  · exact (C1_exact_type_enforcement addF "a" "a" vInt intT 0 vNone [] [] []
      [] [] []).2.2.1 (by decide) (by decide)
  · exact (C1_exact_type_enforcement addF "a" "a" vStr intT 0 vNone [] [] []
      [] [] []).2.2.2.1 (by decide) (by decide) (by decide)
  · exact (C1_exact_type_enforcement addF "a" "a" vInt intT 0 vNone [] [] []
      [] [] []).2.2.2.2.1 (by decide) (by decide) (by decide)
  · exact (C1_exact_type_enforcement addF "a" "a" vStr intT 0 vNone [] [] []
      [] [] []).2.2.2.2.2.2.2.1 (by decide) (by simp) (by decide) (by decide)
  · exact (C1_exact_type_enforcement addF "b" "b" vStr intT 1 vNone [] [vInt] []
      [] [] []).2.2.2.2.2.2.2.2 (by decide) (by simp)
      (by
        intro iv hiv
        simp [enumerateFrom] at hiv
        subst hiv
        rfl)
      (by decide) (by decide) (by decide)

/-- C2: when every supplied keyword and positional argument passes
validation, the wrapped callable invokes the original callable with
exactly the supplied positional and keyword arguments, unmodified, and
returns its result unchanged. -/
theorem C2_passthrough (f : PyFunction) (args : List PyValue)
    (kwargs : List (String × PyValue))
    (h0 : (annsOf f).length ≠ 0)
    (hK : ∀ kv ∈ kwargs, checkKeywordArg f.name (annsOf f) kv = .ok ())
    (hP : ∀ iv ∈ enumerateFrom 0 args,
        checkPositionalArg (posNames f) (annsOf f) iv.1 iv.2 = .ok ()) :
    check_type f args kwargs = .ok (f.call args kwargs) :=
  check_type_ok_of f args kwargs h0 hK hP

/-- Witness for C2: `add(3, b=4)` passes validation and returns the
original callable's result on exactly those arguments, here `7`. -/
theorem C2_witness :
    check_type addF [vInt] [("b", vInt2)]
      = .ok (addF.call [vInt] [("b", vInt2)])
    ∧ addF.call [vInt] [("b", vInt2)] = ⟨intT, 7⟩ := by
  refine ⟨?_, rfl⟩
  exact C2_passthrough addF [vInt] [("b", vInt2)] (by decide)
    (by
      intro kv hkv
      simp at hkv
      subst hkv
      rfl)
    (by
      intro iv hiv
      simp [enumerateFrom] at hiv
      subst hiv
      rfl)

/-- C4: an argument whose parameter is annotated with the `typing.Any`
sentinel is accepted without any check, whatever its runtime type, on
both the keyword path and the positional path. -/
theorem C4_any_sentinel_skip (fn k pname : String)
    (anns : List (String × PyAnn)) (posList : List String) (i : Nat)
    (v : PyValue) :
    (lookupAnn anns k = some .anySentinel →
      checkKeywordArg fn anns (k, v) = .ok ())
    ∧ (posList[i]? = some pname → lookupAnn anns pname = some .anySentinel →
      checkPositionalArg posList anns i v = .ok ()) :=
  ⟨fun hl => checkKeywordArg_skip fn v hl rfl,
   fun hp hl => checkPositionalArg_skip v hp hl rfl⟩

/-- Witness for C4 on `anyf(x: typing.Any)`: values of types `str`,
`bool` and `NoneType` all pass, as keyword and as positional. -/
theorem C4_witness :
    checkKeywordArg anyF.name (annsOf anyF) ("x", vStr) = .ok ()
    ∧ checkKeywordArg anyF.name (annsOf anyF) ("x", vNone) = .ok ()
    ∧ checkPositionalArg (posNames anyF) (annsOf anyF) 0 vBool = .ok () := by
  refine ⟨?_, ?_, ?_⟩
  · exact (C4_any_sentinel_skip anyF.name "x" "x" (annsOf anyF)
      (posNames anyF) 0 vStr).1 (by decide)
  · exact (C4_any_sentinel_skip anyF.name "x" "x" (annsOf anyF)
      (posNames anyF) 0 vNone).1 (by decide)
  · exact (C4_any_sentinel_skip anyF.name "x" "x" (annsOf anyF)
      (posNames anyF) 0 vBool).2 (by decide) (by decide)

/-- C10: an argument whose parameter's annotation is not a runtime type
object — a string annotation or a union annotation such as `int | str` —
is accepted without any type check, exactly as the ANY sentinel is, on
both the keyword and the positional paths. -/
theorem C10_non_type_skip (fn k pname s u : String)
    (anns : List (String × PyAnn)) (posList : List String) (i : Nat)
    (v : PyValue) (a : PyAnn) :
    (PyAnn.isTypeObj a = false → lookupAnn anns k = some a →
      checkKeywordArg fn anns (k, v) = .ok ())
    ∧ (lookupAnn anns k = some (.strAnn s) →
      checkKeywordArg fn anns (k, v) = .ok ())
    ∧ (lookupAnn anns k = some (.unionAnn u) →
      checkKeywordArg fn anns (k, v) = .ok ())
    ∧ (posList[i]? = some pname → lookupAnn anns pname = some (.strAnn s) →
      checkPositionalArg posList anns i v = .ok ())
    ∧ (posList[i]? = some pname → lookupAnn anns pname = some (.unionAnn u) →
      checkPositionalArg posList anns i v = .ok ())
    ∧ (PyAnn.isTypeObj a = false → lookupAnn anns k = some a →
      checkKeywordArg fn anns (k, v)
        = checkKeywordArg fn ((k, PyAnn.anySentinel) :: anns) (k, v)) := by
  refine ⟨?_, ?_, ?_, ?_, ?_, ?_⟩
  · intro ha hl
    exact checkKeywordArg_skip fn v hl ha
  · intro hl
    exact checkKeywordArg_skip fn v hl rfl
  · intro hl
    exact checkKeywordArg_skip fn v hl rfl
  · intro hp hl
    exact checkPositionalArg_skip v hp hl rfl
  · intro hp hl
    exact checkPositionalArg_skip v hp hl rfl
  · intro ha hl
    rw [checkKeywordArg_skip fn v hl ha,
      checkKeywordArg_skip fn v
        (show lookupAnn ((k, PyAnn.anySentinel) :: anns) k
            = some PyAnn.anySentinel by simp [lookupAnn, List.find?]) rfl]

/-- Witness for C10 on `u(a: int | str, b: "int")`: the union-annotated
and the string-annotated parameter both accept values of unrelated
runtime types, as keyword and as positional arguments. -/
theorem C10_witness :
    checkKeywordArg unionF.name (annsOf unionF) ("a", vNone) = .ok ()
    ∧ checkKeywordArg unionF.name (annsOf unionF) ("b", vBool) = .ok ()
    ∧ checkPositionalArg (posNames unionF) (annsOf unionF) 0 vStr = .ok ()
    ∧ checkPositionalArg (posNames unionF) (annsOf unionF) 1 vNone = .ok () := by
  refine ⟨?_, ?_, ?_, ?_⟩
  · exact (C10_non_type_skip unionF.name "a" "a" "int" "int | str"
      (annsOf unionF) (posNames unionF) 0 vNone .anySentinel).2.2.1 (by decide)
  · exact (C10_non_type_skip unionF.name "b" "b" "int" "int | str"
      (annsOf unionF) (posNames unionF) 0 vBool .anySentinel).2.1 (by decide)
  · exact (C10_non_type_skip unionF.name "a" "a" "int" "int | str"
      (annsOf unionF) (posNames unionF) 0 vStr .anySentinel).2.2.2.2.1
      (by decide) (by decide)
  · exact (C10_non_type_skip unionF.name "b" "b" "int" "int | str"
      (annsOf unionF) (posNames unionF) 1 vNone .anySentinel).2.2.2.1
      (by decide) (by decide)

/-- C3 counterexample: `def f() -> int: ...` has zero annotated
parameters, yet the wrapped call raises nothing: `__annotations__`
contains the `"return"` entry, so `len(type_annotations) == 0` is false
and the underlying callable is invoked. -/
theorem C3_counterexample :
    retOnlyF.params = []
    ∧ check_type retOnlyF [] [] = .ok vNone
    ∧ check_type retOnlyF [] [] ≠ .error (.noAnns "f") := by
  exact ⟨rfl, rfl, by decide⟩

/-- C3 (amended): a wrapped call fails with NoAnnotationsError exactly
when the callable's whole `__annotations__` map — parameter annotations
together with the return annotation — is empty; a callable with at
least one annotated parameter never triggers the guard, but a callable
with zero annotated parameters and a return annotation is not caught. -/
theorem C3_no_annotations_guard (f : PyFunction) (args : List PyValue)
    (kwargs : List (String × PyValue)) :
    (annsOf f = [] → check_type f args kwargs = .error (.noAnns f.name))
    ∧ (annsOf f ≠ [] →
      ∀ n', check_type f args kwargs ≠ .error (.noAnns n'))
    ∧ (∀ p ∈ f.params, ∀ a, Param.ann p = some a →
      ∀ n', check_type f args kwargs ≠ .error (.noAnns n')) := by
  have key : annsOf f ≠ [] →
      ∀ n', check_type f args kwargs ≠ .error (.noAnns n') := by
    intro hne n' hEq
    have h0 : ¬ (annsOf f).length = 0 := by
      simpa [List.length_eq_zero] using hne
    unfold check_type at hEq
    rw [if_neg h0] at hEq
    rcases hrk : runChecks (kwargs.map
        (fun kv => checkKeywordArg f.name (annsOf f) kv)) with e | u
    · rw [hrk] at hEq
      simp only [] at hEq
      have he : e = .noAnns n' := by
        simpa using hEq
      obtain ⟨kv, -, hkv⟩ := List.mem_map.1 (runChecks_error_mem hrk)
      rcases checkKeywordArg_error_shape hkv with ⟨k, hk⟩ | ⟨k, t, a, hk⟩
      · rw [he] at hk
        exact absurd hk (by simp)
      · rw [he] at hk
        exact absurd hk (by simp)
    · cases u
      rw [hrk] at hEq
      rcases hrp : runChecks ((enumerateFrom 0 args).map
          (fun iv => checkPositionalArg (posNames f) (annsOf f) iv.1 iv.2))
          with e | u
      · rw [hrp] at hEq
        have he : e = .noAnns n' := by
          simpa using hEq
        obtain ⟨iv, -, hiv⟩ := List.mem_map.1 (runChecks_error_mem hrp)
        rcases checkPositionalArg_error_shape hiv with
          ⟨j, hk⟩ | ⟨j, p, hk⟩ | ⟨j, p, t, a, hk⟩
        · rw [he] at hk
          exact absurd hk (by simp)
        · rw [he] at hk
          exact absurd hk (by simp)
        · rw [he] at hk
          exact absurd hk (by simp)
      · cases u
        rw [hrp] at hEq
        exact absurd hEq (by simp)
  refine ⟨?_, key, ?_⟩
  · intro h
    exact check_type_noAnns f args kwargs (by simp [h])
  · intro p hp a ha
    refine key ?_
    refine List.ne_nil_of_mem (a := (p.name, a)) ?_
    unfold annsOf
    refine List.mem_append_left _ ?_
    exact List.mem_filterMap.2 ⟨p, hp, by rw [ha]; rfl⟩

/-- Witness for C3: a fully unannotated `g(x)` fails with the guard
error on any call (with or without arguments), while `add` (which has
annotated parameters) never produces the guard error. -/
theorem C3_witness :
    check_type noAnnF [] [] = .error (.noAnns "g")
    ∧ check_type noAnnF [vInt] [] = .error (.noAnns "g")
    ∧ check_type addF [] [] ≠ .error (.noAnns "add") := by
  refine ⟨?_, ?_, ?_⟩
  · exact (C3_no_annotations_guard noAnnF [] []).1 rfl
  · exact (C3_no_annotations_guard noAnnF [vInt] []).1 rfl
  · exact (C3_no_annotations_guard addF [] []).2.1 (by decide) "add"

/-- C5 counterexample: calling `def f() -> int: ...` with the keyword
`return` (legal via `f(**{"return": value})`) supplies a keyword that is
not among the declared parameters, yet the call does not fail with the
unexpected-keyword error: the name is found in `__annotations__` (it is
the return annotation's key) and is type-checked against `int` instead,
failing here with the keyword TypeMismatchError. -/
theorem C5_counterexample :
    "return" ∉ retOnlyF.params.map Param.name
    ∧ check_type retOnlyF [] [("return", vStr)]
      = .error (.keywordTypeMismatch "return" intT strT)
    ∧ check_type retOnlyF [] [("return", vStr)]
      ≠ .error (.unknownKeyword "f" "return") := by
  exact ⟨by decide, rfl, by decide⟩

/-- C5 (amended): a keyword argument whose name is absent from the
callable's `__annotations__` map (the annotated parameter names plus the
`"return"` key when a return annotation exists) makes the call fail with
UnknownKeywordArgumentError, whose message names both the callable and
the offending keyword. -/
theorem C5_unknown_keyword (f : PyFunction) (k : String) (v : PyValue)
    (args : List PyValue) (kwpre kwpost : List (String × PyValue)) :
    (lookupAnn (annsOf f) k = none →
      checkKeywordArg f.name (annsOf f) (k, v)
        = .error (.unknownKeyword f.name k))
    ∧ ((annsOf f).length ≠ 0 →
      (∀ kv ∈ kwpre, checkKeywordArg f.name (annsOf f) kv = .ok ()) →
      lookupAnn (annsOf f) k = none →
      check_type f args (kwpre ++ (k, v) :: kwpost)
        = .error (.unknownKeyword f.name k))
    ∧ ContainsStr (CheckError.message (.unknownKeyword f.name k)) f.name
    ∧ ContainsStr (CheckError.message (.unknownKeyword f.name k)) k := by
  refine ⟨?_, ?_, ?_, ?_⟩
  · intro hl
    exact checkKeywordArg_unknown f.name v hl
  · intro h0 hpre hl
    exact check_type_kw_error f args kwpre kwpost k v _ h0 hpre
      (checkKeywordArg_unknown f.name v hl)
  · exact ⟨"Function \x27",
      "\x27 got an unexpected keyword argument \x27" ++ k
        ++ "\x27, perhaps it doesn\x27t have type hint ?",
      by simp [CheckError.message, String.append_assoc]⟩
  · exact ⟨"Function \x27" ++ f.name
        ++ "\x27 got an unexpected keyword argument \x27",
      "\x27, perhaps it doesn\x27t have type hint ?",
      by simp [CheckError.message, String.append_assoc]⟩

/-- Witness for C5: `add(c=3)` fails with the unexpected-keyword error
naming `add` and `c`. -/
theorem C5_witness :
    checkKeywordArg addF.name (annsOf addF) ("c", vInt)
      = .error (.unknownKeyword "add" "c")
    ∧ check_type addF [] [("c", vInt)] = .error (.unknownKeyword "add" "c")
    ∧ ContainsStr (CheckError.message (.unknownKeyword addF.name "c")) "add" := by
  refine ⟨?_, ?_, ?_⟩
  · exact (C5_unknown_keyword addF "c" vInt [] [] []).1 (by decide)
  · exact (C5_unknown_keyword addF "c" vInt [] [] []).2.1 (by decide)
      (by simp) (by decide)
  · exact (C5_unknown_keyword addF "c" vInt [] [] []).2.2.1

/-- C6 counterexample: `h1(a: int)` called with two positional arguments
reaches index 1, which is past the end of the parameter-name list:
Python raises `IndexError("list index out of range")` from the list
subscript — not the PositionalAnnotationMissing `TypeError`, and the
message names neither the index nor a parameter. -/
theorem C6_counterexample :
    check_type oneIntF [vInt, vInt2] [] = .error (.indexOutOfRange 1)
    ∧ CheckError.pyExceptionName (.indexOutOfRange 1) = "IndexError"
    ∧ CheckError.message (.indexOutOfRange 1) = "list index out of range"
    ∧ check_type oneIntF [vInt, vInt2] []
      ≠ .error (.positionalAnnMissing 1 "a") := by
  exact ⟨rfl, rfl, rfl, by decide⟩

/-- C6 (amended): a positional argument whose 0-based index resolves to
a declared parameter name that has no annotation entry makes the call
fail with PositionalAnnotationMissingError naming the index and the
parameter name; an index beyond the declared parameter list instead
raises an IndexError from the list subscript. -/
theorem C6_positional_missing (f : PyFunction) (v : PyValue) (pname : String)
    (i : Nat) (pre post : List PyValue) (kwargs : List (String × PyValue)) :
    ((posNames f)[i]? = some pname → lookupAnn (annsOf f) pname = none →
      checkPositionalArg (posNames f) (annsOf f) i v
        = .error (.positionalAnnMissing i pname))
    ∧ ((posNames f)[i]? = none →
      checkPositionalArg (posNames f) (annsOf f) i v
        = .error (.indexOutOfRange i))
    ∧ ((annsOf f).length ≠ 0 →
      (∀ kv ∈ kwargs, checkKeywordArg f.name (annsOf f) kv = .ok ()) →
      (∀ iv ∈ enumerateFrom 0 pre,
        checkPositionalArg (posNames f) (annsOf f) iv.1 iv.2 = .ok ()) →
      (posNames f)[pre.length]? = some pname →
      lookupAnn (annsOf f) pname = none →
      check_type f (pre ++ v :: post) kwargs
        = .error (.positionalAnnMissing pre.length pname))
    ∧ ((annsOf f).length ≠ 0 →
      (∀ kv ∈ kwargs, checkKeywordArg f.name (annsOf f) kv = .ok ()) →
      (∀ iv ∈ enumerateFrom 0 pre,
        checkPositionalArg (posNames f) (annsOf f) iv.1 iv.2 = .ok ()) →
      (posNames f)[pre.length]? = none →
      check_type f (pre ++ v :: post) kwargs
        = .error (.indexOutOfRange pre.length))
    ∧ ContainsStr (CheckError.message (.positionalAnnMissing i pname))
        (toString i)
    ∧ ContainsStr (CheckError.message (.positionalAnnMissing i pname))
        pname := by
  refine ⟨?_, ?_, ?_, ?_, ?_, ?_⟩
  · intro hp hl
    exact checkPositionalArg_missing v hp hl
  · intro hp
    exact checkPositionalArg_oob (annsOf f) v hp
  · intro h0 hkw hpre hp hl
    exact check_type_pos_error f kwargs pre post v _ h0 hkw hpre
      (checkPositionalArg_missing v hp hl)
  · intro h0 hkw hpre hp
    exact check_type_pos_error f kwargs pre post v _ h0 hkw hpre
      (checkPositionalArg_oob (annsOf f) v hp)
  · exact ⟨"No type information for positional argument at ",
      ", possibly name \x27" ++ pname
        ++ "\x27, consider add a type hint for it",
      by simp [CheckError.message, String.append_assoc]⟩
  · exact ⟨"No type information for positional argument at " ++ toString i
        ++ ", possibly name \x27",
      "\x27, consider add a type hint for it",
      by simp [CheckError.message, String.append_assoc]⟩

/-- Witness for C6: `h2(a: int, b)` called with two positional arguments
fails at index 1 (parameter `b`, unannotated) with the
PositionalAnnotationMissingError; `h1(a: int)` with two positional
arguments fails with the IndexError at index 1. -/
theorem C6_witness :
    checkPositionalArg (posNames mixedF) (annsOf mixedF) 1 vInt2
      = .error (.positionalAnnMissing 1 "b")
    ∧ check_type mixedF [vInt, vInt2] []
      = .error (.positionalAnnMissing 1 "b")
    ∧ check_type oneIntF [vInt, vInt2] [] = .error (.indexOutOfRange 1) := by
  refine ⟨?_, ?_, ?_⟩
  · exact (C6_positional_missing mixedF vInt2 "b" 1 [] [] []).1
      (by decide) (by decide)
  · exact (C6_positional_missing mixedF vInt2 "b" 1 [vInt] [] []).2.2.1
      (by decide) (by simp)
      (by
        intro iv hiv
        simp [enumerateFrom] at hiv
        subst hiv
        rfl)
      (by decide) (by decide)
  · exact (C6_positional_missing oneIntF vInt2 "a" 1 [vInt] [] []).2.2.2.1
      (by decide) (by simp)
      (by
        intro iv hiv
        simp [enumerateFrom] at hiv
        subst hiv
        rfl)
      (by decide)

/-- C7 counterexample: the builtin `len` is invocable, but
`inspect.isfunction(len)` is `False`, so wrapping it fails with the
not-a-function `TypeError` even though it is callable — refuting the
"if and only if its argument is not invocable" direction. -/
theorem C7_counterexample :
    lenB.isCallable = true
    ∧ typecheck lenB = .error (.notCallable "len") := by
  exact ⟨rfl, rfl⟩

/-- C7 (amended): wrap fails with NotCallableError exactly when
`inspect.isfunction` rejects the input — every non-function is rejected
at wrap time (including some invocable objects such as builtins), every
function is wrapped successfully, and `typecheck` itself raises no
error other than NotCallableError; the other errors of the taxonomy can
only arise inside the returned wrapper at call time. -/
theorem C7_wrap_time_errors (f : PyFunction) :
    (f.isFunction = false → typecheck f = .error (.notCallable f.name))
    ∧ (f.isFunction = true →
      typecheck f = .ok ⟨synthesizedDoc f, check_type f⟩)
    ∧ (∀ e, typecheck f = .error e → e = .notCallable f.name) := by
  refine ⟨?_, ?_, ?_⟩
  · intro h
    simp [typecheck, h]
  · intro h
    simp [typecheck, h]
  · intro e he
    by_cases h : f.isFunction = true
    · rw [typecheck, if_pos h] at he
      exact absurd he (by simp)
    · rw [typecheck, if_neg h] at he
      injection he with he
      exact he.symm

/-- Witness for C7: wrapping the function `add` succeeds and yields the
wrapper and rewritten documentation; wrapping the callable non-function
`len` fails at wrap time. -/
theorem C7_witness :
    typecheck addF = .ok ⟨synthesizedDoc addF, check_type addF⟩
    ∧ typecheck lenB = .error (.notCallable "len") := by
  refine ⟨?_, ?_⟩
  · exact (C7_wrap_time_errors addF).2.1 rfl
  · exact (C7_wrap_time_errors lenB).1 rfl

/-- C8 counterexample: a type mismatch on `myfunc(a: int)` produces a
message that does not contain the callable's name anywhere — only the
NoAnnotations and UnknownKeyword messages name the callable. -/
theorem C8_counterexample :
    check_type myF [] [("a", vStr)]
      = .error (.keywordTypeMismatch "a" intT strT)
    ∧ strContains
        (CheckError.message (.keywordTypeMismatch "a" intT strT)) "myfunc"
      = false
    ∧ ¬ ContainsStr
        (CheckError.message (.keywordTypeMismatch "a" intT strT)) "myfunc"
    ∧ check_type myF [vStr] []
      = .error (.positionalTypeMismatch 0 "a" intT strT)
    ∧ ¬ ContainsStr
        (CheckError.message (.positionalTypeMismatch 0 "a" intT strT))
        "myfunc" := by
  refine ⟨rfl, by decide, ?_, rfl, ?_⟩
  · exact not_containsStr (by decide)
  · exact not_containsStr (by decide)

/-- C8 (amended): every call-time error message names the specific
argument (keyword name, or position together with the resolved
parameter name) and, for type mismatches, the declared and the actual
type as the source renders them; the NoAnnotations and UnknownKeyword
messages additionally name the callable, but the TypeMismatch and
PositionalAnnotationMissing messages do not mention the callable. -/
theorem C8_error_messages (n k pname : String) (i : Nat) (t a : PyType) :
    ContainsStr (CheckError.message (.noAnns n)) n
    ∧ ContainsStr (CheckError.message (.unknownKeyword n k)) n
    ∧ ContainsStr (CheckError.message (.unknownKeyword n k)) k
    ∧ ContainsStr (CheckError.message (.keywordTypeMismatch k t a)) k
    ∧ ContainsStr (CheckError.message (.keywordTypeMismatch k t a))
        (get_clear_type_name (strOfPyType t))
    ∧ ContainsStr (CheckError.message (.keywordTypeMismatch k t a))
        (get_clear_type_name (strOfPyType a))
    ∧ ContainsStr (CheckError.message (.positionalAnnMissing i pname))
        (toString i)
    ∧ ContainsStr (CheckError.message (.positionalAnnMissing i pname)) pname
    ∧ ContainsStr (CheckError.message (.positionalTypeMismatch i pname t a))
        (toString i)
    ∧ ContainsStr (CheckError.message (.positionalTypeMismatch i pname t a))
        pname
    ∧ ContainsStr (CheckError.message (.positionalTypeMismatch i pname t a))
        (get_clear_type_name (strOfPyType t))
    ∧ ContainsStr (CheckError.message (.positionalTypeMismatch i pname t a))
        (get_clear_type_name (strOfPyType a)) := by
  refine ⟨?_, ?_, ?_, ?_, ?_, ?_, ?_, ?_, ?_, ?_, ?_, ?_⟩
  · exact ⟨"Type hint required for function \x27", "\x27",
      by simp [CheckError.message, String.append_assoc]⟩
  · exact ⟨"Function \x27",
      "\x27 got an unexpected keyword argument \x27" ++ k
        ++ "\x27, perhaps it doesn\x27t have type hint ?",
      by simp [CheckError.message, String.append_assoc]⟩
  · exact ⟨"Function \x27" ++ n
        ++ "\x27 got an unexpected keyword argument \x27",
      "\x27, perhaps it doesn\x27t have type hint ?",
      by simp [CheckError.message, String.append_assoc]⟩
  · exact ⟨"Keyword argument \x27",
      "\x27 requires type " ++ get_clear_type_name (strOfPyType t)
        ++ ", but got " ++ get_clear_type_name (strOfPyType a),
      by simp [CheckError.message, String.append_assoc]⟩
  · exact ⟨"Keyword argument \x27" ++ k ++ "\x27 requires type ",
      ", but got " ++ get_clear_type_name (strOfPyType a),
      by simp [CheckError.message, String.append_assoc]⟩
  · exact ⟨"Keyword argument \x27" ++ k ++ "\x27 requires type "
        ++ get_clear_type_name (strOfPyType t) ++ ", but got ", "",
      by simp [CheckError.message, String.append_assoc]⟩
  · exact ⟨"No type information for positional argument at ",
      ", possibly name \x27" ++ pname
        ++ "\x27, consider add a type hint for it",
      by simp [CheckError.message, String.append_assoc]⟩
  · exact ⟨"No type information for positional argument at " ++ toString i
        ++ ", possibly name \x27",
      "\x27, consider add a type hint for it",
      by simp [CheckError.message, String.append_assoc]⟩
  · exact ⟨"Positional argument at pos ",
      ", possibly name \x27" ++ pname ++ "\x27, requires type \x27"
        ++ get_clear_type_name (strOfPyType t) ++ "\x27, but got \x27"
        ++ get_clear_type_name (strOfPyType a) ++ "\x27",
      by simp [CheckError.message, String.append_assoc]⟩
  · exact ⟨"Positional argument at pos " ++ toString i
        ++ ", possibly name \x27",
      "\x27, requires type \x27" ++ get_clear_type_name (strOfPyType t)
        ++ "\x27, but got \x27" ++ get_clear_type_name (strOfPyType a)
        ++ "\x27",
      by simp [CheckError.message, String.append_assoc]⟩
  · exact ⟨"Positional argument at pos " ++ toString i
        ++ ", possibly name \x27" ++ pname ++ "\x27, requires type \x27",
      "\x27, but got \x27" ++ get_clear_type_name (strOfPyType a) ++ "\x27",
      by simp [CheckError.message, String.append_assoc]⟩
  · exact ⟨"Positional argument at pos " ++ toString i
        ++ ", possibly name \x27" ++ pname ++ "\x27, requires type \x27"
        ++ get_clear_type_name (strOfPyType t) ++ "\x27, but got \x27",
      "\x27",
      by simp [CheckError.message, String.append_assoc]⟩

/-- C9: the synthesized documentation contains, in this order, the
callable's name, the original documentation text (or the explicit
no-documentation placeholder when none existed), the reconstructed
pseudo-declaration line of every parameter (kind, name, and default,
with `?` when no default exists) in declaration order, and the
parameters-and-returns block entry (`name: type`) of every annotation
in declaration order. -/
theorem C9_doc_structure (f : PyFunction) :
    ContainsInOrder (synthesizedDoc f)
      ([f.name, docAfterNoneFill f.doc]
        ++ f.params.map get_clear_argument_signature
        ++ (annsOf f).map (fun pa =>
            "  " ++ pa.1 ++ ": " ++ get_clear_type_name (strOfAnn pa.2))) := by
  have hblock := cio_annEntriesFrom (annsOf f).length (annsOf f) 0
  have hjoin := cio_joinWith ", \n    " (f.params.map get_clear_argument_signature)
  have hx := cio_append hjoin
    (cio_prepend "\n  ): ...\n\nParameters & Returns:\n" hblock)
  have hy := cio_prepend "\nSignature:\n  " (cio_prepend "def "
    (cio_prepend f.name (cio_prepend "(\n    " hx)))
  exact cio_cons "Documentation for function \""
    ("\":\n" ++ (docAfterNoneFill f.doc ++ ("\nSignature:\n  " ++ ("def "
      ++ (f.name ++ ("(\n    "
      ++ (joinWith ", \n    " (f.params.map get_clear_argument_signature)
        ++ ("\n  ): ...\n\nParameters & Returns:\n"
          ++ annEntriesFrom (annsOf f).length 0 (annsOf f)))))))))
    (by simp [synthesizedDoc, function_signature, function_param_signature,
      String.append_assoc])
    (cio_cons "\":\n"
      ("\nSignature:\n  " ++ ("def " ++ (f.name ++ ("(\n    "
        ++ (joinWith ", \n    " (f.params.map get_clear_argument_signature)
          ++ ("\n  ): ...\n\nParameters & Returns:\n"
            ++ annEntriesFrom (annsOf f).length 0 (annsOf f)))))))
      (by simp [String.append_assoc])
      hy)
